import Mathlib

/-!
Shallow embedding of the GrpcKind external-resource adapter
(internal/controller/grpckind/grpckind.go and
apis/mygroup/v1alpha1/grpckind_types.go) from ashwinshirva/provider-grpc.

Go slices of `int32` can be nil, and `reflect.DeepEqual` distinguishes a
nil slice from an empty one, so item sequences are modelled as
`Option (List Int)` (`none` = nil slice). Go errors are modelled by their
message string; a nil error is `none`. The gRPC client is an oracle: a
record of functions from request to `(response?, error?)`. Each adapter
operation returns its result together with the list of remote calls it
issued, so that theorems can speak about what was sent.
-/

namespace ProviderGrpc

/-- Does the second character list start with the first? Helper for the
embedding of Go `strings.Contains`. -/
def leadMatch : List Char → List Char → Bool
  | [], _ => true
  | _ :: _, [] => false
  | a :: as, b :: bs => a == b && leadMatch as bs

/-- Does `pat` occur as a contiguous run inside the list? -/
def hasSub (pat : List Char) : List Char → Bool
  | [] => pat.isEmpty
  | c :: cs => leadMatch pat (c :: cs) || hasSub pat cs

/-- Embedding of Go `strings.Contains s pat`. -/
def strContains (s pat : String) : Bool :=
  hasSub pat.data s.data

/-- Constant `errNotGrpcKind` from grpckind.go. -/
def errNotGrpcKind : String := "managed resource is not a GrpcKind custom resource"

/-- The only condition this adapter ever sets: `xpv1.Available()`
(the Ready condition with status True). -/
inductive Condition where
  | available
deriving Repr, DecidableEq, BEq

/-- Structure `GrpcKindParameters` (grpckind_types.go): name, optional description
(Go `*string`), optional item list (Go `[]int32`, nil allowed). -/
structure GrpcKindParameters where
  name : String
  description : Option String
  listItems : Option (List Int)
deriving Repr, DecidableEq

/-- Structure `GrpcKindObservation` (grpckind_types.go): the status string recorded
at the provider. -/
structure GrpcKindObservation where
  status : String
deriving Repr, DecidableEq

/-- Structure `GrpcKindStatus`: lifecycle conditions (from the embedded
`xpv1.ResourceStatus`) plus the `AtProvider` observation. -/
structure GrpcKindStatus where
  conditions : List Condition
  atProvider : GrpcKindObservation
deriving Repr, DecidableEq

/-- Structure `GrpcKindSpec`: the desired state (`ForProvider`). -/
structure GrpcKindSpec where
  forProvider : GrpcKindParameters
deriving Repr, DecidableEq

/-- The `GrpcKind` managed resource. -/
structure GrpcKind where
  spec : GrpcKindSpec
  status : GrpcKindStatus
deriving Repr, DecidableEq

/-- Interface `resource.Managed` as the adapter sees it: either a `*GrpcKind`, or a
value of some other kind (the payload is irrelevant to the adapter). -/
inductive Managed where
  | grpcKind : GrpcKind → Managed
  | other : String → Managed
deriving Repr, DecidableEq

/-- Proto message `GetListReq`. -/
structure GetListReq where
  name : String
deriving Repr, DecidableEq

/-- Proto message `GetListResp`: a status string and the item slice. -/
structure GetListResp where
  status : String
  items : Option (List Int)
deriving Repr, DecidableEq

/-- Proto message `CreateListReq`. -/
structure CreateListReq where
  name : String
  description : String
deriving Repr, DecidableEq

/-- Proto message `CreateListResp`. -/
structure CreateListResp where
  status : String
deriving Repr, DecidableEq

/-- Proto message `UpdateListItemsReq`: the replacement item slice. -/
structure UpdateListItemsReq where
  name : String
  newItems : Option (List Int)
deriving Repr, DecidableEq

/-- Proto message `UpdateListItemsResp`. -/
structure UpdateListItemsResp where
  status : String
deriving Repr, DecidableEq

/-- Proto message `DeleteListReq`. -/
structure DeleteListReq where
  name : String
deriving Repr, DecidableEq

/-- Proto message `DeleteListResp`. -/
structure DeleteListResp where
  status : String
deriving Repr, DecidableEq

/-- A remote call issued by the adapter, recording the request sent. -/
inductive RemoteCall where
  | getList : GetListReq → RemoteCall
  | createList : CreateListReq → RemoteCall
  | updateListItems : UpdateListItemsReq → RemoteCall
  | deleteList : DeleteListReq → RemoteCall
deriving Repr, DecidableEq

/-- The `ListServiceClient` oracle: each RPC maps a request to a possibly
nil response and a possibly nil error, exactly the Go return shape. -/
structure ListService where
  getList : GetListReq → Option GetListResp × Option String
  createList : CreateListReq → Option CreateListResp × Option String
  updateListItems : UpdateListItemsReq → Option UpdateListItemsResp × Option String
  deleteList : DeleteListReq → Option DeleteListResp × Option String

/-- Struct `managed.ExternalObservation`: existence, up-to-dateness and the
connection-detail map (always empty here). -/
structure ExternalObservation where
  resourceExists : Bool
  resourceUpToDate : Bool
  connectionDetails : List (String × String)
deriving Repr, DecidableEq

/-- Struct `managed.ExternalCreation`. -/
structure ExternalCreation where
  connectionDetails : List (String × String)
deriving Repr, DecidableEq

/-- Struct `managed.ExternalUpdate`. -/
structure ExternalUpdate where
  connectionDetails : List (String × String)
deriving Repr, DecidableEq

/-- Result of `Create`: a normal return carries the creation struct and the
(possibly mutated) resource; `err` is a non-nil returned error; `nilDeref`
marks the nil-pointer dereference of `createResp.Status` at line 237. -/
inductive CreateResult where
  | ok : ExternalCreation → GrpcKind → CreateResult
  | err : String → CreateResult
  | nilDeref : CreateResult
deriving Repr, DecidableEq

/-- Result of `Delete`: `done` is a nil-error return; `err` a returned
error; `nilDeref` marks the dereference of `deleteResp.Status` in the
success-path log statement at line 290. -/
inductive DeleteResult where
  | done : DeleteResult
  | err : String → DeleteResult
  | nilDeref : DeleteResult
deriving Repr, DecidableEq

/-- Embedding of `cr.Status.SetConditions(xpv1.Available())`: the external
runtime records the Available condition on the resource status. -/
def setAvailableOn (cr : GrpcKind) : GrpcKind :=
  { cr with status := { cr.status with
      conditions := cr.status.conditions ++ [Condition.available] } }

/-- Is the Available condition recorded on the resource? -/
def hasAvailable (cr : GrpcKind) : Bool :=
  cr.status.conditions.any (fun c => c == Condition.available)

/-- Line 166: `getErr != nil && strings.Contains(getErr.Error(), "does not exist")`. -/
def isDoesNotExistErr : Option String → Bool
  | some e => strContains e "does not exist"
  | none => false

/-- Line 177 guard: `resp != nil && resp.Status == "SUCCESS"`. -/
def respStatusSuccess : Option GetListResp → Bool
  | some r => r.status == "SUCCESS"
  | none => false

/-- Line 183 guard: `resp != nil && !reflect.DeepEqual(resp.Items, cr.Spec.ForProvider.ListItems)`. -/
def itemsChanged (resp : Option GetListResp) (cr : GrpcKind) : Bool :=
  match resp with
  | some r => !(r.items == cr.spec.forProvider.listItems)
  | none => false

/-- The `GetListReq` Observe builds at line 165. -/
def getListReqOf (cr : GrpcKind) : GetListReq :=
  { name := cr.spec.forProvider.name }

/-- Body of `Observe` after the `GetList` call returns `(resp, getErr)`
(lines 166-206): the "does not exist" early return, the conditional
`SetConditions(Available())`, the item comparison, and the final return. -/
def observeRespond (cr : GrpcKind) (resp : Option GetListResp) (getErr : Option String) :
    Except String (ExternalObservation × GrpcKind) :=
  if isDoesNotExistErr getErr then
    Except.ok ({ resourceExists := false, resourceUpToDate := true,
                 connectionDetails := [] }, cr)
  else
    let cr1 := if respStatusSuccess resp then setAvailableOn cr else cr
    if itemsChanged resp cr1 then
      Except.ok ({ resourceExists := true, resourceUpToDate := false,
                   connectionDetails := [] }, cr1)
    else
      Except.ok ({ resourceExists := true, resourceUpToDate := true,
                   connectionDetails := [] }, cr1)

/-- Method `(c *external) Observe` (lines 152-206). Returns the observation (or the
wrong-kind error) paired with the resulting resource, plus the remote
calls issued. -/
def Observe (svc : ListService) (mg : Managed) :
    Except String (ExternalObservation × GrpcKind) × List RemoteCall :=
  match mg with
  | Managed.other _ => (Except.error errNotGrpcKind, [])
  | Managed.grpcKind cr =>
    let p := svc.getList (getListReqOf cr)
    (observeRespond cr p.1 p.2, [RemoteCall.getList (getListReqOf cr)])

/-- Lines 217-220: `description := ""` and, when the pointer is non-nil,
`*cr.Spec.ForProvider.Description = description`. -/
def clearDescription (cr : GrpcKind) : GrpcKind :=
  match cr.spec.forProvider.description with
  | some _ => { cr with spec := { cr.spec with
      forProvider := { cr.spec.forProvider with description := some "" } } }
  | none => cr

/-- The `CreateListReq` Create sends at lines 222-225: the resource name and
the local `description` variable, which is always the empty string. -/
def createReqOf (cr : GrpcKind) : CreateListReq :=
  { name := cr.spec.forProvider.name, description := "" }

/-- Line 227 guard: `err != nil && !strings.Contains(err.Error(), "does not exist")`. -/
def isSwallowedCreateErr : Option String → Bool
  | some e => !strContains e "does not exist"
  | none => false

/-- Body of `Create` after the `CreateList` call returns
`(createResp, err)` (lines 227-243): the swallowing branch returns a nil
error; otherwise `createResp.Status` is dereferenced (a nil `createResp`
panics) and recorded in `cr.Status.AtProvider.Status`. -/
def createRespond (cr : GrpcKind) (createResp : Option CreateListResp) (err : Option String) :
    CreateResult :=
  if isSwallowedCreateErr err then
    CreateResult.ok { connectionDetails := [] } cr
  else
    match createResp with
    | none => CreateResult.nilDeref
    | some r =>
      CreateResult.ok { connectionDetails := [] }
        { cr with status := { cr.status with atProvider := { status := r.status } } }

/-- Method `(c *external) Create` (lines 208-244). -/
def Create (svc : ListService) (mg : Managed) : CreateResult × List RemoteCall :=
  match mg with
  | Managed.other _ => (CreateResult.err errNotGrpcKind, [])
  | Managed.grpcKind cr =>
    let cr1 := clearDescription cr
    let p := svc.createList (createReqOf cr1)
    (createRespond cr1 p.1 p.2, [RemoteCall.createList (createReqOf cr1)])

/-- The `UpdateListItemsReq` Update sends at lines 254-257: the full desired
item slice as the replacement list. -/
def updateReqOf (cr : GrpcKind) : UpdateListItemsReq :=
  { name := cr.spec.forProvider.name, newItems := cr.spec.forProvider.listItems }

/-- Body of `Update` after the call (lines 260-271): any non-nil error is
returned unchanged; otherwise a nil error with an empty update struct. -/
def updateRespond : Option String → Except String ExternalUpdate
  | some e => Except.error e
  | none => Except.ok { connectionDetails := [] }

/-- Method `(c *external) Update` (lines 246-272). -/
def Update (svc : ListService) (mg : Managed) :
    Except String ExternalUpdate × List RemoteCall :=
  match mg with
  | Managed.other _ => (Except.error errNotGrpcKind, [])
  | Managed.grpcKind cr =>
    let p := svc.updateListItems (updateReqOf cr)
    (updateRespond p.2, [RemoteCall.updateListItems (updateReqOf cr)])

/-- Body of `Delete` after the call (lines 286-292): a non-nil error is
returned unchanged; on the nil-error path the log statement dereferences
`deleteResp.Status` (nil response panics), then nil is returned. -/
def deleteRespond (resp : Option DeleteListResp) (err : Option String) : DeleteResult :=
  match err with
  | some e => DeleteResult.err e
  | none =>
    match resp with
    | none => DeleteResult.nilDeref
    | some _ => DeleteResult.done

/-- Method `(c *external) Delete` (lines 274-293). -/
def Delete (svc : ListService) (mg : Managed) : DeleteResult × List RemoteCall :=
  match mg with
  | Managed.other _ => (DeleteResult.err errNotGrpcKind, [])
  | Managed.grpcKind cr =>
    let p := svc.deleteList { name := cr.spec.forProvider.name }
    (deleteRespond p.1 p.2, [RemoteCall.deleteList { name := cr.spec.forProvider.name }])

/-! ### Unfolding equations and basic helper lemmas -/

theorem Observe_grpcKind (svc : ListService) (cr : GrpcKind) :
    Observe svc (Managed.grpcKind cr) =
      (observeRespond cr (svc.getList (getListReqOf cr)).1 (svc.getList (getListReqOf cr)).2,
       [RemoteCall.getList (getListReqOf cr)]) := rfl

theorem Create_grpcKind (svc : ListService) (cr : GrpcKind) :
    Create svc (Managed.grpcKind cr) =
      (createRespond (clearDescription cr)
         (svc.createList (createReqOf (clearDescription cr))).1
         (svc.createList (createReqOf (clearDescription cr))).2,
       [RemoteCall.createList (createReqOf (clearDescription cr))]) := rfl

theorem Update_grpcKind (svc : ListService) (cr : GrpcKind) :
    Update svc (Managed.grpcKind cr) =
      (updateRespond (svc.updateListItems (updateReqOf cr)).2,
       [RemoteCall.updateListItems (updateReqOf cr)]) := rfl

theorem clearDescription_name (cr : GrpcKind) :
    (clearDescription cr).spec.forProvider.name = cr.spec.forProvider.name := by
  unfold clearDescription
  cases cr.spec.forProvider.description <;> rfl

theorem clearDescription_description (cr : GrpcKind) :
    (clearDescription cr).spec.forProvider.description =
      Option.map (fun _ => "") cr.spec.forProvider.description := by
  unfold clearDescription
  cases h : cr.spec.forProvider.description <;> simp [h]

theorem createReqOf_clear (cr : GrpcKind) :
    createReqOf (clearDescription cr) = createReqOf cr := by
  simp [createReqOf, clearDescription_name]

theorem setAvailableOn_spec (cr : GrpcKind) :
    (setAvailableOn cr).spec = cr.spec := rfl

theorem hasAvailable_setAvailableOn (cr : GrpcKind) :
    hasAvailable (setAvailableOn cr) = true := by
  simp [hasAvailable, setAvailableOn]

/-! ### Concrete fixtures used by counterexamples and witnesses -/

/-- A desired state with no description and items `[1, 2, 3]`. -/
def crA : GrpcKind :=
  { spec := { forProvider := { name := "a", description := none, listItems := some [1, 2, 3] } }
  , status := { conditions := [], atProvider := { status := "" } } }

/-- A desired state with a supplied description. -/
def crB : GrpcKind :=
  { spec := { forProvider := { name := "b", description := some "keep me", listItems := some [1, 2] } }
  , status := { conditions := [], atProvider := { status := "" } } }

/-- A desired state whose item list is nil (omitted). -/
def crNilItems : GrpcKind :=
  { spec := { forProvider := { name := "c", description := none, listItems := none } }
  , status := { conditions := [], atProvider := { status := "" } } }

/-- An oracle where every RPC returns a nil response and a nil error. -/
def svcQuiet : ListService :=
  { getList := fun _ => (none, none)
  , createList := fun _ => (none, none)
  , updateListItems := fun _ => (none, none)
  , deleteList := fun _ => (none, none) }

/-- GetList fails with a network-style error (no "does not exist"). -/
def svcGetBoom : ListService :=
  { svcQuiet with getList := fun _ => (none, some "rpc error: connection refused") }

/-- GetList fails with a "does not exist" error. -/
def svcGetMissing : ListService :=
  { svcQuiet with getList := fun _ => (none, some "list does not exist") }

/-- GetList succeeds with status SUCCESS and items `[1, 2, 3]`. -/
def svcGetOk : ListService :=
  { svcQuiet with getList := fun _ => (some { status := "SUCCESS", items := some [1, 2, 3] }, none) }

/-- GetList succeeds with status SUCCESS and a non-nil empty item slice. -/
def svcGetEmptyItems : ListService :=
  { svcQuiet with getList := fun _ => (some { status := "SUCCESS", items := some [] }, none) }

/-- CreateList fails with an error that does not mention "does not exist". -/
def svcCreateBoom : ListService :=
  { svcQuiet with createList := fun _ => (none, some "rpc error: server unavailable") }

/-- CreateList returns a nil response and a "does not exist" error. -/
def svcCreateMissing : ListService :=
  { svcQuiet with createList := fun _ => (none, some "list does not exist") }

/-- CreateList succeeds with status SUCCESS. -/
def svcCreateOk : ListService :=
  { svcQuiet with createList := fun _ => (some { status := "SUCCESS" }, none) }

/-- The resource carried by a normal `Create` return, if any. -/
def okCR : CreateResult → Option GrpcKind
  | CreateResult.ok _ c => some c
  | _ => none

/-! ### Claim theorems -/

/-- C8: for every desired state, Update sends the complete desired item
sequence (every element, in order, nil-ness included) as the replacement
list in the remote UpdateListItems call — not a diff against observed
state. -/
theorem update_sends_full_items (svc : ListService) (cr : GrpcKind) :
    (Update svc (Managed.grpcKind cr)).2 =
      [RemoteCall.updateListItems
        { name := cr.spec.forProvider.name, newItems := cr.spec.forProvider.listItems }] := rfl

/-- C9: on any input that is not a GrpcKind resource, each of Observe,
Create, Update and Delete returns the error "managed resource is not a
GrpcKind custom resource" and issues no remote call. -/
theorem wrong_kind_rejected (svc : ListService) (s : String) :
    Observe svc (Managed.other s) = (Except.error errNotGrpcKind, []) ∧
    Create svc (Managed.other s) = (CreateResult.err errNotGrpcKind, []) ∧
    Update svc (Managed.other s) = (Except.error errNotGrpcKind, []) ∧
    Delete svc (Managed.other s) = (DeleteResult.err errNotGrpcKind, []) :=
  ⟨rfl, rfl, rfl, rfl⟩

/-- C2: for every desired state and every remote behavior, Create sends
exactly one CreateList call whose description is the empty string, and the
resource it returns on a normal return carries a cleared description
(`some ""` when one was supplied, still absent when omitted). -/
theorem create_sends_empty_description (svc : ListService) (cr : GrpcKind) :
    (Create svc (Managed.grpcKind cr)).2 =
      [RemoteCall.createList { name := cr.spec.forProvider.name, description := "" }] ∧
    (okCR (Create svc (Managed.grpcKind cr)).1).all
      (fun cr2 => cr2.spec.forProvider.description ==
        Option.map (fun _ => "") cr.spec.forProvider.description) = true := by
  constructor
  · rw [Create_grpcKind, createReqOf_clear]
    rfl
  · rw [Create_grpcKind]
    unfold createRespond
    cases hsw : isSwallowedCreateErr (svc.createList (createReqOf (clearDescription cr))).2
    · cases hresp : (svc.createList (createReqOf (clearDescription cr))).1
      · simp [okCR]
      · simp [okCR, clearDescription_description]
    · simp [okCR, clearDescription_description]

/-- C3: for every desired state, if the remote CreateList call fails with
an error whose message does not contain "does not exist", Create swallows
it: it returns a normal (nil-error) result carrying the
description-cleared resource. -/
theorem create_swallows_other_errors (svc : ListService) (cr : GrpcKind) (e : String)
    (h1 : (svc.createList (createReqOf cr)).2 = some e)
    (h2 : strContains e "does not exist" = false) :
    (Create svc (Managed.grpcKind cr)).1 =
      CreateResult.ok { connectionDetails := [] } (clearDescription cr) := by
  rw [Create_grpcKind, createReqOf_clear]
  simp [createRespond, isSwallowedCreateErr, h1, h2]

/-- Witness for C3 at a concrete oracle and resource. -/
theorem create_swallows_other_errors_witness :
    (Create svcCreateBoom (Managed.grpcKind crB)).1 =
      CreateResult.ok { connectionDetails := [] } (clearDescription crB) :=
  create_swallows_other_errors svcCreateBoom crB "rpc error: server unavailable" rfl (by decide)

/-- C6: for every desired state, if the GetList lookup fails with an error
whose message contains "does not exist", Observe returns Absent
(resource does not exist) with a nil error, leaving the resource
untouched. -/
theorem observe_absent_on_not_exist (svc : ListService) (cr : GrpcKind) (e : String)
    (h1 : (svc.getList (getListReqOf cr)).2 = some e)
    (h2 : strContains e "does not exist" = true) :
    Observe svc (Managed.grpcKind cr) =
      (Except.ok ({ resourceExists := false, resourceUpToDate := true,
                    connectionDetails := [] }, cr),
       [RemoteCall.getList (getListReqOf cr)]) := by
  rw [Observe_grpcKind]
  simp [observeRespond, isDoesNotExistErr, h1, h2]

/-- Witness for C6 at a concrete oracle and resource. -/
theorem observe_absent_on_not_exist_witness :
    Observe svcGetMissing (Managed.grpcKind crA) =
      (Except.ok ({ resourceExists := false, resourceUpToDate := true,
                    connectionDetails := [] }, crA),
       [RemoteCall.getList (getListReqOf crA)]) :=
  observe_absent_on_not_exist svcGetMissing crA "list does not exist" rfl (by decide)

/-- C5: for every desired state whose GetList lookup succeeds, Observe
reports the resource as existing and up to date exactly when the remote
item sequence equals the desired one under order-sensitive structural
equality (nil and empty distinguished): unequal sequences give
PresentStale, equal ones PresentCurrent. -/
theorem observe_compares_items (svc : ListService) (cr : GrpcKind) (r : GetListResp)
    (h : svc.getList (getListReqOf cr) = (some r, none)) :
    ∃ cr2, (Observe svc (Managed.grpcKind cr)).1 =
      Except.ok ({ resourceExists := true,
                   resourceUpToDate := (r.items == cr.spec.forProvider.listItems),
                   connectionDetails := [] }, cr2) := by
  refine ⟨if respStatusSuccess (some r) then setAvailableOn cr else cr, ?_⟩
  cases hs : respStatusSuccess (some r) <;>
  cases hb : (r.items == cr.spec.forProvider.listItems) <;>
    simp [Observe_grpcKind, h, observeRespond, isDoesNotExistErr, itemsChanged,
      setAvailableOn, hs, hb]

/-- Witness for C5 at a concrete oracle and resource (matching sequences). -/
theorem observe_compares_items_witness :
    ∃ cr2, (Observe svcGetOk (Managed.grpcKind crA)).1 =
      Except.ok ({ resourceExists := true, resourceUpToDate := true,
                   connectionDetails := [] }, cr2) := by
  simpa using
    observe_compares_items svcGetOk crA { status := "SUCCESS", items := some [1, 2, 3] } rfl

/-- C10: Observe's item comparison distinguishes a nil item sequence from
an empty one: if one side is nil and the other a non-nil empty sequence,
Observe reports PresentStale even though both contain no elements. -/
theorem observe_nil_vs_empty_stale (svc : ListService) (cr : GrpcKind) (r : GetListResp)
    (h : svc.getList (getListReqOf cr) = (some r, none))
    (hne : (cr.spec.forProvider.listItems = none ∧ r.items = some []) ∨
           (cr.spec.forProvider.listItems = some [] ∧ r.items = none)) :
    ∃ cr2, (Observe svc (Managed.grpcKind cr)).1 =
      Except.ok ({ resourceExists := true, resourceUpToDate := false,
                   connectionDetails := [] }, cr2) := by
  refine ⟨if respStatusSuccess (some r) then setAvailableOn cr else cr, ?_⟩
  rcases hne with ⟨h1, h2⟩ | ⟨h1, h2⟩ <;>
  cases hs : respStatusSuccess (some r) <;>
    simp [Observe_grpcKind, h, observeRespond, isDoesNotExistErr, itemsChanged,
      setAvailableOn, hs, h1, h2]

/-- Witness for C10: desired items nil, remote items a non-nil empty slice. -/
theorem observe_nil_vs_empty_stale_witness :
    ∃ cr2, (Observe svcGetEmptyItems (Managed.grpcKind crNilItems)).1 =
      Except.ok ({ resourceExists := true, resourceUpToDate := false,
                   connectionDetails := [] }, cr2) :=
  observe_nil_vs_empty_stale svcGetEmptyItems crNilItems
    { status := "SUCCESS", items := some [] } rfl (Or.inl ⟨rfl, rfl⟩)

/-- C4: if CreateList returns a nil response together with a
"does not exist" error, Create hits the nil dereference of
`createResp.Status` (a panic, not a return); and whenever the response is
non-nil the dereference is safe (Create never reaches the panic). -/
theorem create_nil_response_deref :
    (∀ (svc : ListService) (cr : GrpcKind) (e : String),
      svc.createList (createReqOf cr) = (none, some e) →
      strContains e "does not exist" = true →
      (Create svc (Managed.grpcKind cr)).1 = CreateResult.nilDeref) ∧
    (∀ (svc : ListService) (cr : GrpcKind) (r : CreateListResp),
      (svc.createList (createReqOf cr)).1 = some r →
      (Create svc (Managed.grpcKind cr)).1 ≠ CreateResult.nilDeref) := by
  constructor
  · intro svc cr e h1 h2
    rw [Create_grpcKind, createReqOf_clear, h1]
    simp [createRespond, isSwallowedCreateErr, h2]
  · intro svc cr r h1
    rw [Create_grpcKind, createReqOf_clear]
    unfold createRespond
    cases hsw : isSwallowedCreateErr (svc.createList (createReqOf cr)).2 <;>
      simp [h1, hsw]

/-- Witness for C4: the panic happens at a concrete oracle returning
`(nil, "list does not exist")`, and does not when the response is non-nil. -/
theorem create_nil_response_deref_witness :
    (Create svcCreateMissing (Managed.grpcKind crA)).1 = CreateResult.nilDeref ∧
    (Create svcCreateOk (Managed.grpcKind crA)).1 ≠ CreateResult.nilDeref :=
  ⟨create_nil_response_deref.1 svcCreateMissing crA "list does not exist" rfl (by decide),
   create_nil_response_deref.2 svcCreateOk crA { status := "SUCCESS" } rfl⟩

/-- Helper: once past the wrong-kind check, Observe always returns a nil
error — `observeRespond` produces an ok value for every response and
error. -/
theorem observeRespond_ok (cr : GrpcKind) (resp : Option GetListResp) (err : Option String) :
    ∃ obs cr2, observeRespond cr resp err = Except.ok (obs, cr2) := by
  unfold observeRespond
  cases hde : isDoesNotExistErr err
  · cases hic : itemsChanged resp (if respStatusSuccess resp then setAvailableOn cr else cr)
    · exact ⟨{ resourceExists := true, resourceUpToDate := true, connectionDetails := [] },
        if respStatusSuccess resp then setAvailableOn cr else cr, by simp [hde, hic]⟩
    · exact ⟨{ resourceExists := true, resourceUpToDate := false, connectionDetails := [] },
        if respStatusSuccess resp then setAvailableOn cr else cr, by simp [hde, hic]⟩
  · exact ⟨{ resourceExists := false, resourceUpToDate := true, connectionDetails := [] },
      cr, by simp [hde]⟩

/-- C7: under the gRPC client contract (a non-nil response comes with a nil
error), Observe records the Available condition exactly when the GetList
response is present with status "SUCCESS", independently of the item
comparison; conditions already present are kept. -/
theorem observe_ready_iff_success (svc : ListService) (cr : GrpcKind)
    (h : (svc.getList (getListReqOf cr)).1 = none ∨ (svc.getList (getListReqOf cr)).2 = none) :
    ∃ obs cr2, (Observe svc (Managed.grpcKind cr)).1 = Except.ok (obs, cr2) ∧
      hasAvailable cr2 =
        (hasAvailable cr || respStatusSuccess (svc.getList (getListReqOf cr)).1) := by
  rcases hq : svc.getList (getListReqOf cr) with ⟨resp, err⟩
  rw [hq] at h
  simp only [] at h
  cases hde : isDoesNotExistErr err with
  | true =>
    have hrn : resp = none := by
      rcases h with h | h
      · exact h
      · rw [h] at hde
        simp [isDoesNotExistErr] at hde
    refine ⟨{ resourceExists := false, resourceUpToDate := true, connectionDetails := [] },
      cr, ?_, ?_⟩
    · rw [Observe_grpcKind, hq]
      simp [observeRespond, hde]
    · simp [hrn, respStatusSuccess]
  | false =>
    cases hs : respStatusSuccess resp with
    | true =>
      cases hic : itemsChanged resp (setAvailableOn cr) with
      | true =>
        refine ⟨{ resourceExists := true, resourceUpToDate := false, connectionDetails := [] },
          setAvailableOn cr, ?_, ?_⟩
        · rw [Observe_grpcKind, hq]
          simp [observeRespond, hde, hs, hic]
        · simp [hasAvailable_setAvailableOn, hs]
      | false =>
        refine ⟨{ resourceExists := true, resourceUpToDate := true, connectionDetails := [] },
          setAvailableOn cr, ?_, ?_⟩
        · rw [Observe_grpcKind, hq]
          simp [observeRespond, hde, hs, hic]
        · simp [hasAvailable_setAvailableOn, hs]
    | false =>
      cases hic : itemsChanged resp cr with
      | true =>
        refine ⟨{ resourceExists := true, resourceUpToDate := false, connectionDetails := [] },
          cr, ?_, ?_⟩
        · rw [Observe_grpcKind, hq]
          simp [observeRespond, hde, hs, hic]
        · simp [hs]
      | false =>
        refine ⟨{ resourceExists := true, resourceUpToDate := true, connectionDetails := [] },
          cr, ?_, ?_⟩
        · rw [Observe_grpcKind, hq]
          simp [observeRespond, hde, hs, hic]
        · simp [hs]

/-- Witness for C7: a SUCCESS response marks the resource available. -/
theorem observe_ready_iff_success_witness :
    ∃ obs cr2, (Observe svcGetOk (Managed.grpcKind crA)).1 = Except.ok (obs, cr2) ∧
      hasAvailable cr2 =
        (hasAvailable crA || respStatusSuccess (svcGetOk.getList (getListReqOf crA)).1) :=
  observe_ready_iff_success svcGetOk crA (Or.inr rfl)

/-- C1 counterexample: when GetList fails with "rpc error: connection
refused" (no "does not exist"), Observe does not surface the error: it
returns the nil-error outcome reporting the resource as existing and up to
date. -/
theorem observe_lookup_error_swallowed_cex :
    Observe svcGetBoom (Managed.grpcKind crA) =
      (Except.ok ({ resourceExists := true, resourceUpToDate := true,
                    connectionDetails := [] }, crA),
       [RemoteCall.getList { name := "a" }]) := rfl

/-- C1 (amended): a GetList error whose message does not contain
"does not exist" is swallowed by Observe — for every desired state and
every such error, Observe returns a nil error (an ok outcome), never the
lookup error. -/
theorem observe_swallows_other_lookup_errors (svc : ListService) (cr : GrpcKind) (e : String)
    (h1 : (svc.getList (getListReqOf cr)).2 = some e)
    (h2 : strContains e "does not exist" = false) :
    ∃ obs cr2, (Observe svc (Managed.grpcKind cr)).1 = Except.ok (obs, cr2) := by
  rcases observeRespond_ok cr (svc.getList (getListReqOf cr)).1
    (svc.getList (getListReqOf cr)).2 with ⟨obs, cr2, hh⟩
  refine ⟨obs, cr2, ?_⟩
  rw [Observe_grpcKind]
  exact hh

/-- Witness for the amended C1 at a concrete oracle and resource. -/
theorem observe_swallows_other_lookup_errors_witness :
    ∃ obs cr2, (Observe svcGetBoom (Managed.grpcKind crA)).1 = Except.ok (obs, cr2) :=
  observe_swallows_other_lookup_errors svcGetBoom crA "rpc error: connection refused"
    rfl (by decide)

end ProviderGrpc
